import Mathlib

/-!
Shallow embedding of the model-graded classification pipeline of
`src/js/llm.ts` (the `autoevals` LLM classifier module).

JavaScript `Record<string, T>` objects are modelled as ordered association
lists with first-match lookup (keys are unique as the source uses them).
JavaScript `number` is modelled as `Rat`, `undefined`/optional values as
`Option`.  Throwing code is modelled with `Except`.  The external
collaborators (the mustache renderer, the network provider) are passed in
as function parameters; the cached completion call, which lives in the
external `oai` module, is modelled from the spec.
-/

namespace Autoevals

/-- JS whitespace test on a character (model of the class trimmed by
`String.prototype.trim`). -/
def jsIsWhitespace (c : Char) : Bool := c.isWhitespace

/-- JS `String.prototype.trim`: strips whitespace from both ends.
Defined structurally over the character list so it is kernel-computable. -/
def jsTrim (s : String) : String :=
  ⟨((s.data.dropWhile jsIsWhitespace).reverse.dropWhile jsIsWhitespace).reverse⟩

/-- JS `String.prototype.startsWith`. -/
def jsStartsWith (s p : String) : Bool := s.data.take p.data.length == p.data

/-- JS `Array.prototype.join` on an array of strings. -/
def jsJoin (sep : String) : List String → String
  | [] => ""
  | [x] => x
  | x :: xs => x ++ sep ++ jsJoin sep xs

/-- First-match association-list lookup, modelling JS object property
lookup on objects with unique keys. -/
def assocLookup {β : Type} : List (String × β) → String → Option β
  | [], _ => none
  | (k, v) :: rest, key => if key = k then some v else assocLookup rest key

/-- A value that can appear in a mustache render context: the source passes
strings, string lists (`__choices`), booleans (`useCoT`) and `undefined`
(absent `expected`). -/
inductive RenderVal where
  | str (s : String)
  | boolVal (b : Bool)
  | strList (l : List String)
  | undef
deriving DecidableEq, Repr

/-- Constant `NO_COT_SUFFIX` from `llm.ts`. -/
def NO_COT_SUFFIX : String :=
  "Answer the question by calling `select_choice` with a single choice from \x7b\x7b__choices\x7d\x7d."

/-- Constant `COT_SUFFIX` from `llm.ts`. -/
def COT_SUFFIX : String :=
  "Answer the question by calling `select_choice` with your reasoning in a step-by-step manner to be sure that your conclusion is correct. Avoid simply stating the correct answer at the outset. Select a single choice by setting the `choice` parameter to a single choice from \x7b\x7b__choices\x7d\x7d."

/-- Constant `SUPPORTED_MODELS` from `llm.ts`. -/
def SUPPORTED_MODELS : List String := ["gpt-3.5-turbo", "gpt-4"]

/-- A single JSON-schema property, as used in the two response schemas:
`items` records the item type of an array property, `enum` the optional
enumeration restriction added by `buildClassificationFunctions`. -/
structure PropertySchema where
  description : String
  title : String
  type : String
  items : Option String := none
  enum : Option (List String) := none
deriving DecidableEq, Repr

/-- The `parameters` JSON schema of a function definition; `properties` is
an ordered association list, preserving JS object key order. -/
structure ParamsSchema where
  properties : List (String × PropertySchema)
  required : List String
  title : String
  type : String
deriving DecidableEq, Repr

/-- Constant `PLAIN_RESPONSE_SCHEMA` from `llm.ts`. -/
def PLAIN_RESPONSE_SCHEMA : ParamsSchema :=
  { properties := [("choice", { description := "The choice", title := "Choice", type := "string" })]
    required := ["choice"]
    title := "FunctionResponse"
    type := "object" }

/-- Constant `COT_RESPONSE_SCHEMA` from `llm.ts`. -/
def COT_RESPONSE_SCHEMA : ParamsSchema :=
  { properties :=
      [("reasons",
        { description := "Write out in a step by step manner your reasoning to be sure that your conclusion is correct. Avoid simply stating the correct answer at the outset."
          items := some "string"
          title := "Reasons"
          type := "array" }),
       ("choice", { description := "The choice", title := "Choice", type := "string" })]
    required := ["reasons", "choice"]
    title := "CoTResponse"
    type := "object" }

/-- A chat-completion function definition (the `functions` entry). -/
structure FunctionDef where
  name : String
  description : String
  parameters : ParamsSchema
deriving DecidableEq, Repr

/-- Function `buildClassificationFunctions` from `llm.ts`: picks the schema by
reasoning mode and overrides the `choice` property with the enum of choice
strings (the JS spread keeps the property in its original position). -/
def buildClassificationFunctions (useCoT : Bool) (choiceStrings : List String) :
    List FunctionDef :=
  let params := if useCoT then COT_RESPONSE_SCHEMA else PLAIN_RESPONSE_SCHEMA
  let enumParams :=
    { params with
        properties := params.properties.map fun p =>
          if p.1 = "choice" then (p.1, { p.2 with enum := some choiceStrings }) else p }
  [{ name := "select_choice"
     description := "Call this function to select a choice."
     parameters := enumParams }]

/-- The structured payload obtained by `JSON.parse` of the function-call
`arguments` string: `choice` may be absent (malformed reply), `reasons` is
absent in non-chain-of-thought mode. -/
structure FunctionArgs where
  choice : Option String
  reasons : Option (List String)
deriving DecidableEq, Repr

/-- A `function_call` in a chat message, with its arguments already in
parsed form. -/
structure FunctionCall where
  name : String
  arguments : FunctionArgs
deriving DecidableEq, Repr

/-- Shape `ChatCompletionMessage`: the assistant message of a provider reply. -/
structure ChatCompletionMessage where
  role : String
  content : Option String := none
  function_call : Option FunctionCall := none
deriving DecidableEq, Repr

/-- One entry of the `choices` array of a provider response. -/
structure ResponseChoice where
  message : ChatCompletionMessage
deriving DecidableEq, Repr

/-- The provider reply shape `{choices: [...]}`. -/
structure ChatResponse where
  choices : List ResponseChoice
deriving DecidableEq, Repr

/-- The errors thrown by the pipeline. -/
inductive ClassifierError where
  | unsupportedModel (model : String)
  | emptyResponse
  | malformedResponse
  | unknownChoice (choice : String)
deriving DecidableEq, Repr

/-- The `metadata` of a `Score`: `rationale` is set from `reasons` when
present, `choice` is always the trimmed choice string. -/
structure ScoreMetadata where
  rationale : Option String
  choice : String
deriving DecidableEq, Repr

/-- Shape `Omit<Score, "name">`: what `parseResponse` returns. -/
structure ScoreData where
  score : Rat
  metadata : ScoreMetadata
deriving DecidableEq, Repr

/-- The final `Score` object returned to the caller. -/
structure Score where
  name : String
  score : Rat
  metadata : ScoreMetadata
deriving DecidableEq, Repr

/-- Function `parseResponse` from `llm.ts`: extracts the function-call arguments,
joins `reasons` (when present) with newlines into the rationale, trims the
choice, and maps it through the choice-score record; an absent
function call or choice is a malformed response, a trimmed choice missing
from the record is an unknown-choice error. -/
def parseResponse (resp : ChatCompletionMessage)
    (choiceScores : List (String × Rat)) : Except ClassifierError ScoreData :=
  match resp.function_call with
  | none => .error .malformedResponse
  | some fc =>
    let args := fc.arguments
    let rationale := args.reasons.map (fun rs => jsJoin "\n" rs)
    match args.choice with
    | none => .error .malformedResponse
    | some c =>
      let choice := jsTrim c
      match assocLookup choiceScores choice with
      | some s => .ok { score := s, metadata := { rationale := rationale, choice := choice } }
      | none => .error (.unknownChoice choice)

/-- A rendered chat message (content already interpolated). -/
structure ChatMessage where
  role : String
  content : String
deriving DecidableEq, Repr

/-- A chat message as passed in (content may be null). -/
structure MessageTemplate where
  role : String
  content : Option String
deriving DecidableEq, Repr

/-- The full chat-completion request, which is also the cache key:
`function_call` is the name of the forced function. -/
structure ChatRequest where
  model : String
  messages : List ChatMessage
  functions : List FunctionDef
  function_call : String
  temperature : Rat
  max_tokens : Option Nat
deriving DecidableEq, Repr

/-- The key-value cache, content-addressed by the full request. -/
def ChatCache : Type := List (ChatRequest × ChatResponse)

/-- Request lookup in the cache (first match). -/
def cacheLookup : ChatCache → ChatRequest → Option ChatResponse
  | [], _ => none
  | (k, v) :: rest, key => if key = k then some v else cacheLookup rest key

/-- Modelled from the spec: `cachedChatCompletion` from the external `oai`
module (not under `src/`).  Per spec section 4.3 it keys the cache on the
full request; on a hit it returns the stored response with no network
call, on a miss it performs exactly one network call, stores the raw
response under the key, and returns it.  The deterministic provider
stands for the network; the returned `Nat` counts network calls made. -/
def cachedChatCompletion (provider : ChatRequest → ChatResponse)
    (req : ChatRequest) (cache : ChatCache) :
    ChatResponse × ChatCache × Nat :=
  match cacheLookup cache req with
  | some resp => (resp, cache, 0)
  | none =>
    let resp := provider req
    (resp, (req, resp) :: cache, 1)

/-- JS `x || d` on an optional number: `undefined` and `0` are falsy. -/
def jsNumOr (x : Option Rat) (d : Rat) : Rat :=
  match x with
  | none => d
  | some t => if t = 0 then d else t

/-- The arguments of `OpenAIClassifier` after destructuring (auth fields,
handled by the external transport as a black box, are omitted):
`remainingRenderArgs` holds every property not destructured, in JS
object order with later entries overriding earlier ones. -/
structure OpenAIClassifierArgs where
  name : String
  output : String
  expected : Option String
  messages : List MessageTemplate
  model : String
  choiceScores : List (String × Rat)
  classificationFunctions : List FunctionDef
  maxTokens : Option Nat
  temperature : Option Rat
  remainingRenderArgs : List (String × RenderVal)

/-- The mustache render context built in `OpenAIClassifier`:
`{output, expected, ...remainingRenderArgs}`. -/
def classifierRenderArgs (args : OpenAIClassifierArgs) : List (String × RenderVal) :=
  ("output", RenderVal.str args.output) ::
  ("expected", (args.expected.map RenderVal.str).getD RenderVal.undef) ::
  args.remainingRenderArgs

/-- The chat request rendered by `OpenAIClassifier`: message contents are
mustache-rendered against the render context (`""` and null contents stay
empty, matching JS truthiness), temperature defaults to `0` via `||`, and
the call is forced onto the `select_choice` function. -/
def classifierRequest (render : String → List (String × RenderVal) → String)
    (args : OpenAIClassifierArgs) : ChatRequest :=
  { model := args.model
    messages := args.messages.map fun m =>
      { role := m.role
        content :=
          match m.content with
          | some c => if c = "" then "" else render c (classifierRenderArgs args)
          | none => "" }
    functions := args.classificationFunctions
    function_call := "select_choice"
    temperature := jsNumOr args.temperature 0
    max_tokens := args.maxTokens }

/-- Function `OpenAIClassifier` from `llm.ts`: validates the model family by
prefix before touching cache or network, renders the messages, performs
the cached completion, and parses the first choice of the reply (an
empty `choices` array is an error).  Returns the outcome together with
the updated cache and the number of network calls made. -/
def OpenAIClassifier (render : String → List (String × RenderVal) → String)
    (provider : ChatRequest → ChatResponse)
    (args : OpenAIClassifierArgs) (cache : ChatCache) :
    Except ClassifierError Score × ChatCache × Nat :=
  if SUPPORTED_MODELS.any (fun m => jsStartsWith args.model m) then
    let req := classifierRequest render args
    let rc := cachedChatCompletion provider req cache
    let outcome : Except ClassifierError Score :=
      match rc.1.choices with
      | c :: _ =>
        match parseResponse c.message args.choiceScores with
        | .ok sd => .ok { name := args.name, score := sd.score, metadata := sd.metadata }
        | .error e => .error e
      | [] => .error .emptyResponse
    (outcome, rc.2.1, rc.2.2)
  else
    (.error (.unsupportedModel args.model), cache, 0)

/-- The construction-time parameters of `LLMClassifierFromTemplate`;
`model = none` stands for an absent argument, defaulted to
`"gpt-3.5-turbo"` by the destructuring default. -/
structure TemplateParams where
  name : String
  promptTemplate : String
  choiceScores : List (String × Rat)
  model : Option String
  useCoT : Option Bool
  temperature : Option Rat

/-- The runtime arguments of a classifier built from a template:
the known optional overrides plus any extra template variables
(`extraRenderArgs`). -/
structure RuntimeArgs where
  output : String
  expected : Option String
  model : Option String
  useCoT : Option Bool
  temperature : Option Rat
  maxTokens : Option Nat
  extraRenderArgs : List (String × RenderVal)

/-- The `OpenAIClassifierArgs` value assembled by the closure returned by
`LLMClassifierFromTemplate`: resolves `useCoT` as
`runtimeArgs.useCoT ?? useCoTArg ?? true`, appends the suffix of that
mode to the prompt, builds the classification functions of that mode,
and merges the
explicit fields with the runtime-argument spread (later JS keys win, so
runtime `model`/`maxTokens`/`temperature` override the defaults while the
trailing `useCoT` cannot be overridden and lands last in the leftover
render arguments). -/
def templateClassifierArgs (p : TemplateParams) (rt : RuntimeArgs) :
    OpenAIClassifierArgs :=
  let choiceStrings := p.choiceScores.map Prod.fst
  let useCoT := rt.useCoT.getD (p.useCoT.getD true)
  let prompt := p.promptTemplate ++ "\n" ++ (if useCoT then COT_SUFFIX else NO_COT_SUFFIX)
  let maxTokens := 512
  { name := p.name
    output := rt.output
    expected := rt.expected
    messages := [{ role := "user", content := some prompt }]
    choiceScores := p.choiceScores
    classificationFunctions := buildClassificationFunctions useCoT choiceStrings
    model := rt.model.getD (p.model.getD "gpt-3.5-turbo")
    maxTokens := some (rt.maxTokens.getD maxTokens)
    temperature := rt.temperature <|> p.temperature
    remainingRenderArgs :=
      ("__choices", RenderVal.strList choiceStrings) ::
      rt.extraRenderArgs ++ [("useCoT", RenderVal.boolVal useCoT)] }

/-- Function `LLMClassifierFromTemplate` from `llm.ts`, applied to one runtime
invocation: delegates to `OpenAIClassifier` with the assembled args. -/
def LLMClassifierFromTemplate (render : String → List (String × RenderVal) → String)
    (provider : ChatRequest → ChatResponse)
    (p : TemplateParams) (rt : RuntimeArgs) (cache : ChatCache) :
    Except ClassifierError Score × ChatCache × Nat :=
  OpenAIClassifier render provider (templateClassifierArgs p rt) cache

/-- Interface `ModelGradedSpec` from `llm.ts`. -/
structure ModelGradedSpec where
  prompt : String
  choice_scores : List (String × Rat)
  model : Option String
  use_cot : Option Bool
  temperature : Option Rat

/-- Function `LLMClassifierFromSpec` from `llm.ts`: repackages a spec into the
template parameters passed to `LLMClassifierFromTemplate`. -/
def LLMClassifierFromSpecParams (name : String) (spec : ModelGradedSpec) :
    TemplateParams :=
  { name := name
    promptTemplate := spec.prompt
    choiceScores := spec.choice_scores
    model := spec.model
    useCoT := spec.use_cot
    temperature := spec.temperature }

/-- Function `LLMClassifierFromSpec` applied to one runtime invocation. -/
def LLMClassifierFromSpec (render : String → List (String × RenderVal) → String)
    (provider : ChatRequest → ChatResponse)
    (name : String) (spec : ModelGradedSpec) (rt : RuntimeArgs) (cache : ChatCache) :
    Except ClassifierError Score × ChatCache × Nat :=
  LLMClassifierFromTemplate render provider (LLMClassifierFromSpecParams name spec) rt cache

/-! ## Theorems -/

/-- Association lookup misses exactly when the key is not among the keys. -/
theorem assocLookup_eq_none_of_not_mem {β : Type} (l : List (String × β)) (k : String)
    (h : k ∉ l.map Prod.fst) : assocLookup l k = none := by
  induction l with
  | nil => rfl
  | cons p rest ih =>
    simp only [List.map_cons, List.mem_cons, not_or] at h
    simp only [assocLookup, if_neg h.1]
    exact ih h.2

/-- C1: for every choice-score map and every reply whose function-call
arguments contain a `choice` string whose trimmed form is a key of the
map with score `S`, parsing succeeds with `score = S` and
`metadata.choice` equal to the trimmed choice. -/
theorem parseResponse_known_choice
    (choiceScores : List (String × Rat)) (msg : ChatCompletionMessage)
    (fc : FunctionCall) (c : String) (S : Rat)
    (hfc : msg.function_call = some fc)
    (hc : fc.arguments.choice = some c)
    (hS : assocLookup choiceScores (jsTrim c) = some S) :
    ∃ sd, parseResponse msg choiceScores = .ok sd ∧
      sd.score = S ∧ sd.metadata.choice = jsTrim c := by
  refine ⟨⟨S, ⟨fc.arguments.reasons.map (fun rs => jsJoin "\n" rs), jsTrim c⟩⟩, ?_, rfl, rfl⟩
  simp [parseResponse, hfc, hc, hS]

/-- Witness for C1: a reply choosing `" Yes "` against the map
`Yes ↦ 1, No ↦ 0` scores `1` with trimmed choice `"Yes"`. -/
theorem parseResponse_known_choice_witness :
    ∃ sd, parseResponse
        ⟨"assistant", none, some ⟨"select_choice", ⟨some " Yes ", none⟩⟩⟩
        [("Yes", 1), ("No", 0)] = .ok sd ∧
      sd.score = 1 ∧ sd.metadata.choice = jsTrim " Yes " :=
  parseResponse_known_choice [("Yes", 1), ("No", 0)]
    ⟨"assistant", none, some ⟨"select_choice", ⟨some " Yes ", none⟩⟩⟩
    ⟨"select_choice", ⟨some " Yes ", none⟩⟩ " Yes " 1 rfl rfl (by decide)

/-- C2: for every choice-score map and every reply whose function-call
arguments contain a `choice` whose trimmed form is not a key of the map,
parsing fails with the unknown-choice error (no score, no fallback). -/
theorem parseResponse_unknown_choice
    (choiceScores : List (String × Rat)) (msg : ChatCompletionMessage)
    (fc : FunctionCall) (c : String)
    (hfc : msg.function_call = some fc)
    (hc : fc.arguments.choice = some c)
    (hnot : jsTrim c ∉ choiceScores.map Prod.fst) :
    parseResponse msg choiceScores = .error (.unknownChoice (jsTrim c)) := by
  simp [parseResponse, hfc, hc, assocLookup_eq_none_of_not_mem _ _ hnot]

/-- Witness for C2: the reply `"Maybe"` against the map
`Yes ↦ 1, No ↦ 0` yields the unknown-choice error. -/
theorem parseResponse_unknown_choice_witness :
    parseResponse ⟨"assistant", none, some ⟨"select_choice", ⟨some "Maybe", none⟩⟩⟩
        [("Yes", 1), ("No", 0)] = .error (.unknownChoice (jsTrim "Maybe")) :=
  parseResponse_unknown_choice [("Yes", 1), ("No", 0)]
    ⟨"assistant", none, some ⟨"select_choice", ⟨some "Maybe", none⟩⟩⟩
    ⟨"select_choice", ⟨some "Maybe", none⟩⟩ "Maybe" rfl rfl (by decide)

/-- C7: whenever parsing succeeds, the rationale stored in the metadata is
exactly the newline-join of the `reasons` array when present, and absent
when `reasons` is absent. -/
theorem parseResponse_rationale
    (choiceScores : List (String × Rat)) (msg : ChatCompletionMessage)
    (fc : FunctionCall) (sd : ScoreData)
    (hfc : msg.function_call = some fc)
    (hok : parseResponse msg choiceScores = .ok sd) :
    sd.metadata.rationale = fc.arguments.reasons.map (fun rs => jsJoin "\n" rs) := by
  simp only [parseResponse, hfc] at hok
  split at hok
  · exact absurd hok (by simp)
  · split at hok
    · injection hok with h
      subst h
      rfl
    · exact absurd hok (by simp)

/-- Witness for C7: reasons `["step one", "step two"]` yield the rationale
`"step one\nstep two"`. -/
theorem parseResponse_rationale_witness :
    (ScoreData.mk 1 ⟨some "step one\nstep two", "Yes"⟩).metadata.rationale
      = (FunctionCall.mk "select_choice" ⟨some "Yes", some ["step one", "step two"]⟩).arguments.reasons.map
          (fun rs => jsJoin "\n" rs) :=
  parseResponse_rationale [("Yes", 1)]
    ⟨"assistant", none, some ⟨"select_choice", ⟨some "Yes", some ["step one", "step two"]⟩⟩⟩
    ⟨"select_choice", ⟨some "Yes", some ["step one", "step two"]⟩⟩
    (ScoreData.mk 1 ⟨some "step one\nstep two", "Yes"⟩) rfl rfl

/-- C3: for every reasoning mode and every ordered label list,
`buildClassificationFunctions` returns exactly one function, named
`select_choice`, whose `choice` property is the string enum of exactly the
given labels in the given order; without chain of thought the schema has
and requires exactly the single field `choice`, with chain of thought it
has and requires `reasons` (an array of strings) ordered before `choice`. -/
theorem buildClassificationFunctions_spec (useCoT : Bool) (labels : List String) :
    ∃ f, buildClassificationFunctions useCoT labels = [f] ∧
      f.name = "select_choice" ∧
      assocLookup f.parameters.properties "choice" =
        some { description := "The choice", title := "Choice", type := "string"
               enum := some labels } ∧
      f.parameters.properties.map Prod.fst =
        (if useCoT then ["reasons", "choice"] else ["choice"]) ∧
      f.parameters.required = (if useCoT then ["reasons", "choice"] else ["choice"]) ∧
      (if useCoT then
        assocLookup f.parameters.properties "reasons" =
          some { description := "Write out in a step by step manner your reasoning to be sure that your conclusion is correct. Avoid simply stating the correct answer at the outset."
                 items := some "string"
                 title := "Reasons"
                 type := "array"
                 enum := none }
       else True) := by
  cases useCoT with
  | false =>
    exact ⟨_, rfl, rfl, by simp [buildClassificationFunctions, PLAIN_RESPONSE_SCHEMA, assocLookup],
      by simp [buildClassificationFunctions, PLAIN_RESPONSE_SCHEMA],
      by simp [buildClassificationFunctions, PLAIN_RESPONSE_SCHEMA], by simp⟩
  | true =>
    exact ⟨_, rfl, rfl, by simp [buildClassificationFunctions, COT_RESPONSE_SCHEMA, assocLookup],
      by simp [buildClassificationFunctions, COT_RESPONSE_SCHEMA],
      by simp [buildClassificationFunctions, COT_RESPONSE_SCHEMA],
      by simp [buildClassificationFunctions, COT_RESPONSE_SCHEMA, assocLookup]⟩

/-- C4: when the requested model starts with none of the supported
prefixes, the classifier fails with the unsupported-model error, the cache
is returned untouched and zero network calls are made. -/
theorem OpenAIClassifier_unsupported_model
    (render : String → List (String × RenderVal) → String)
    (provider : ChatRequest → ChatResponse)
    (args : OpenAIClassifierArgs) (cache : ChatCache)
    (h : ∀ m ∈ SUPPORTED_MODELS, jsStartsWith args.model m = false) :
    OpenAIClassifier render provider args cache =
      (.error (.unsupportedModel args.model), cache, 0) := by
  have hany : SUPPORTED_MODELS.any (fun m => jsStartsWith args.model m) = false := by
    simp only [List.any_eq_false]
    intro m hm
    simp [h m hm]
  simp [OpenAIClassifier, hany]

/-- Witness for C4: model `"claude-2"` is rejected with no cache or
network interaction. -/
theorem OpenAIClassifier_unsupported_model_witness :
    OpenAIClassifier (fun _ _ => "") (fun _ => ⟨[]⟩)
      ⟨"Humor", "a pun", none, [], "claude-2", [], [], none, none, []⟩ [] =
      (.error (.unsupportedModel "claude-2"), [], 0) :=
  OpenAIClassifier_unsupported_model (fun _ _ => "") (fun _ => ⟨[]⟩)
    ⟨"Humor", "a pun", none, [], "claude-2", [], [], none, none, []⟩ []
    (by decide)

/-- C8: when the model is supported and the (cached or fresh) provider
response carries zero choices, the classifier fails with the
empty-response error and returns no score. -/
theorem OpenAIClassifier_empty_response
    (render : String → List (String × RenderVal) → String)
    (provider : ChatRequest → ChatResponse)
    (args : OpenAIClassifierArgs) (cache : ChatCache)
    (hm : SUPPORTED_MODELS.any (fun m => jsStartsWith args.model m) = true)
    (h : (cachedChatCompletion provider (classifierRequest render args) cache).1.choices = []) :
    (OpenAIClassifier render provider args cache).1 = .error .emptyResponse := by
  simp only [OpenAIClassifier, hm, if_true]
  rw [h]

/-- Witness for C8: a provider answering with zero choices makes a
`"gpt-4"` classification fail with the empty-response error. -/
theorem OpenAIClassifier_empty_response_witness :
    (OpenAIClassifier (fun _ _ => "") (fun _ => ⟨[]⟩)
      ⟨"Humor", "a pun", none, [], "gpt-4", [], [], none, none, []⟩ []).1 =
      .error .emptyResponse :=
  OpenAIClassifier_empty_response (fun _ _ => "") (fun _ => ⟨[]⟩)
    ⟨"Humor", "a pun", none, [], "gpt-4", [], [], none, none, []⟩ []
    (by decide) rfl

/-- A repeated cached completion with the same request against the cache
produced by the first one is a hit: same response, same cache, zero
network calls. -/
theorem cachedChatCompletion_second_call (provider : ChatRequest → ChatResponse)
    (req : ChatRequest) (cache : ChatCache) :
    cachedChatCompletion provider req ((cachedChatCompletion provider req cache).2.1)
      = ((cachedChatCompletion provider req cache).1,
         (cachedChatCompletion provider req cache).2.1, 0) := by
  unfold cachedChatCompletion
  cases h : cacheLookup cache req with
  | some resp => simp [h]
  | none => simp [h, cacheLookup]

/-- One cached completion performs at most one network call. -/
theorem cachedChatCompletion_calls_le_one (provider : ChatRequest → ChatResponse)
    (req : ChatRequest) (cache : ChatCache) :
    (cachedChatCompletion provider req cache).2.2 ≤ 1 := by
  unfold cachedChatCompletion
  cases h : cacheLookup cache req <;> simp [h]

/-- C5: invoking the classifier twice with identical arguments, threading
the cache, serves the second invocation from the cache: its outcome and
cache equal those of the first, it performs zero network calls, and the two
invocations together perform at most one network call. -/
theorem OpenAIClassifier_cache_idempotent
    (render : String → List (String × RenderVal) → String)
    (provider : ChatRequest → ChatResponse)
    (args : OpenAIClassifierArgs) (cache : ChatCache) :
    (OpenAIClassifier render provider args ((OpenAIClassifier render provider args cache).2.1)).1
        = (OpenAIClassifier render provider args cache).1
    ∧ (OpenAIClassifier render provider args ((OpenAIClassifier render provider args cache).2.1)).2.1
        = (OpenAIClassifier render provider args cache).2.1
    ∧ (OpenAIClassifier render provider args ((OpenAIClassifier render provider args cache).2.1)).2.2 = 0
    ∧ (OpenAIClassifier render provider args cache).2.2
        + (OpenAIClassifier render provider args ((OpenAIClassifier render provider args cache).2.1)).2.2
        ≤ 1 := by
  by_cases hm : SUPPORTED_MODELS.any (fun m => jsStartsWith args.model m) = true
  · have hsecond := cachedChatCompletion_second_call provider (classifierRequest render args) cache
    have hle := cachedChatCompletion_calls_le_one provider (classifierRequest render args) cache
    simp only [OpenAIClassifier, hm, if_true]
    rw [hsecond]
    refine ⟨rfl, rfl, rfl, ?_⟩
    simpa using hle
  · simp [OpenAIClassifier, hm]

/-- C6: for every template and every runtime invocation, the effective
chain-of-thought flag is the runtime argument when supplied, else the
construction-time default, else `true`; that flag selects the prompt
suffix and the response schema, and it is appended last to the render
arguments sent downstream, after every runtime-supplied entry, so no
runtime argument can displace it. -/
theorem LLMClassifierFromTemplate_useCoT_resolution
    (p : TemplateParams) (rt : RuntimeArgs) :
    ∃ eff : Bool,
      eff = (match rt.useCoT, p.useCoT with
             | some b, _ => b
             | none, some b => b
             | none, none => true) ∧
      (templateClassifierArgs p rt).messages =
        [⟨"user", some (p.promptTemplate ++ "\n" ++
            (if eff then COT_SUFFIX else NO_COT_SUFFIX))⟩] ∧
      (templateClassifierArgs p rt).classificationFunctions =
        buildClassificationFunctions eff (p.choiceScores.map Prod.fst) ∧
      (templateClassifierArgs p rt).remainingRenderArgs =
        ("__choices", RenderVal.strList (p.choiceScores.map Prod.fst)) ::
          rt.extraRenderArgs ++ [("useCoT", RenderVal.boolVal eff)] := by
  refine ⟨rt.useCoT.getD (p.useCoT.getD true), ?_, rfl, rfl, rfl⟩
  cases rt.useCoT with
  | some b => rfl
  | none => cases p.useCoT with
    | some b => rfl
    | none => rfl

/-- C9: with no model in the template parameters (or in the
classifier spec) and none supplied at invocation time, the chat request is
made with model `"gpt-3.5-turbo"`. -/
theorem LLMClassifier_default_model
    (render : String → List (String × RenderVal) → String)
    (p : TemplateParams) (name : String) (spec : ModelGradedSpec) (rt : RuntimeArgs)
    (hp : p.model = none) (hspec : spec.model = none) (hrt : rt.model = none) :
    (classifierRequest render (templateClassifierArgs p rt)).model = "gpt-3.5-turbo" ∧
    (classifierRequest render
        (templateClassifierArgs (LLMClassifierFromSpecParams name spec) rt)).model
      = "gpt-3.5-turbo" := by
  constructor <;>
    simp [classifierRequest, templateClassifierArgs, LLMClassifierFromSpecParams, hp, hspec, hrt]

/-- Witness for C9: a concrete spec and invocation without models request
`"gpt-3.5-turbo"`. -/
theorem LLMClassifier_default_model_witness :
    (classifierRequest (fun _ _ => "")
        (templateClassifierArgs
          ⟨"Humor", "Is this funny?", [("Yes", 1), ("No", 0)], none, none, none⟩
          ⟨"a pun", none, none, none, none, none, []⟩)).model = "gpt-3.5-turbo" ∧
    (classifierRequest (fun _ _ => "")
        (templateClassifierArgs
          (LLMClassifierFromSpecParams "Humor"
            ⟨"Is this funny?", [("Yes", 1), ("No", 0)], none, none, none⟩)
          ⟨"a pun", none, none, none, none, none, []⟩)).model = "gpt-3.5-turbo" :=
  LLMClassifier_default_model (fun _ _ => "")
    ⟨"Humor", "Is this funny?", [("Yes", 1), ("No", 0)], none, none, none⟩
    "Humor" ⟨"Is this funny?", [("Yes", 1), ("No", 0)], none, none, none⟩
    ⟨"a pun", none, none, none, none, none, []⟩ rfl rfl rfl

/-- C10: the chat request of a template-built classifier asks for the
runtime `maxTokens` when supplied and for `512` tokens otherwise. -/
theorem LLMClassifier_maxTokens_default
    (render : String → List (String × RenderVal) → String)
    (p : TemplateParams) (rt : RuntimeArgs) :
    (classifierRequest render (templateClassifierArgs p rt)).max_tokens
      = some (rt.maxTokens.getD 512) := rfl

end Autoevals
